import Mathlib

/-!
Shallow embedding of `src/pickley/package.py` (pickley): the `VersionMeta`
version-metadata model, the `Packager` refresh/install control flow, and the
`DeliveryMethod` delivery strategies.  Machine state (persisted files, index
queries, clock) is passed explicitly; Python string/None truthiness is made
explicit via `strTruthy`/`optStrTruthy`/`optTimeTruthy`.  Timestamps are
modelled as integers (`time.time()` values); only order and subtraction of
timestamps matter to the embedded code.
-/

namespace Pickley

/-- Python truthiness of a string: non-empty strings are truthy. -/
def strTruthy (s : String) : Bool := s ≠ ""

/-- Python truthiness of an optional string (`None` and `""` are falsy). -/
def optStrTruthy : Option String → Bool
  | none => false
  | some s => s ≠ ""

/-- Python truthiness of an optional numeric timestamp (`None` and `0` are falsy). -/
def optTimeTruthy : Option Int → Bool
  | none => false
  | some t => t ≠ 0

/-- `system.DEFAULT_CHANNEL` ("latest"). -/
def DEFAULT_CHANNEL : String := "latest"

/-- The fields of `VersionMeta` (package.py:159-172).  `_problem` is `None` or a
string; `timestamp` is `None` or an epoch value. -/
structure VersionMeta where
  problem : Option String := none
  channel : String := ""
  packager : String := ""
  delivery : String := ""
  python : String := ""
  source : String := ""
  timestamp : Option Int := none
  version : String := ""
deriving Repr, DecidableEq

/-- `VersionMeta.valid` (package.py:233-238): `bool(self.version) and not self._problem`. -/
def VersionMeta.valid (m : VersionMeta) : Bool :=
  strTruthy m.version && !optStrTruthy m.problem

/-- `VersionMeta.equivalent` (package.py:247-258). -/
def VersionMeta.equivalent (m : VersionMeta) (other : Option VersionMeta) : Bool :=
  match other with
  | none => false
  | some o =>
    if m.version ≠ o.version then false
    else if m.packager ≠ o.packager then false
    else true

/-- `VersionMeta.set_version` (package.py:260-269); `now` is the value of
`time.time()` at the call. -/
def VersionMeta.set_version (m : VersionMeta) (version source : String)
    (channel : String) (now : Int) : VersionMeta :=
  { m with version := version, source := source, channel := channel,
           timestamp := some now }

/-- One `VersionMeta`-argument step of `VersionMeta.set` (package.py:273-284):
problem/channel/source/timestamp/version are assigned unconditionally;
packager/delivery/python only when the other's value is truthy. -/
def VersionMeta.setOne (m other : VersionMeta) : VersionMeta :=
  { m with
    problem := other.problem,
    channel := other.channel,
    packager := if strTruthy other.packager then other.packager else m.packager,
    delivery := if strTruthy other.delivery then other.delivery else m.delivery,
    python := if strTruthy other.python then other.python else m.python,
    source := other.source,
    timestamp := other.timestamp,
    version := other.version }

/-- `VersionMeta.set(*others)` restricted to `VersionMeta` arguments
(package.py:271-284): the arguments are folded in order. -/
def VersionMeta.setList (m : VersionMeta) (others : List VersionMeta) : VersionMeta :=
  others.foldl VersionMeta.setOne m

/-- The data `VersionMeta.set` reads from a `Packager` argument
(package.py:285-290): its implementation name, the resolved delivery method
(when `DELIVERERS.resolved` yields a `DeliveryMethod`), and the resolved python. -/
structure PackagerInfo where
  implementation_name : String
  resolvedDelivery : Option String
  resolvedPython : String
deriving Repr, DecidableEq

/-- One `Packager`-argument step of `VersionMeta.set` (package.py:285-290). -/
def VersionMeta.setPackager (m : VersionMeta) (p : PackagerInfo) : VersionMeta :=
  { m with
    packager := p.implementation_name,
    delivery := match p.resolvedDelivery with
      | some d => d
      | none => m.delivery,
    python := p.resolvedPython }

/-- `VersionMeta.invalidate` (package.py:292-297). -/
def VersionMeta.invalidate (m : VersionMeta) (problem : String) : VersionMeta :=
  { m with problem := some problem, version := "" }

/-- `VersionMeta.still_valid` (package.py:299-309): returns `valid` when the
meta is invalid or the timestamp is falsy, otherwise compares the elapsed time
against the configured delay. -/
def VersionMeta.still_valid (now delay : Int) (m : VersionMeta) : Bool :=
  if !m.valid || !optTimeTruthy m.timestamp then m.valid
  else
    match m.timestamp with
    | some t => decide (now - t < delay)
    | none => false

/-- `JsonSerializable.load` effect on a fresh meta: if the json file exists its
record replaces the in-memory fields, otherwise the meta is unchanged. -/
def loadMeta (file : Option VersionMeta) (m : VersionMeta) : VersionMeta :=
  file.getD m

/-- The configuration a `Packager` reads from `SETTINGS` during refresh/install
(package.py:405-433, 488-529): the index, the version-check delay, the resolved
channel for the package, the channel's explicit version pin (`None` when the
definition is absent) and its `str(v)` rendering, the package name, and the
packager-derived data consumed by `VersionMeta.set`. -/
structure SettingsModel where
  index : String
  version_check_delay : Int
  channelValue : String
  pinned : Option String
  pinnedStr : String
  name : String
  pinfo : PackagerInfo
deriving Repr, DecidableEq

/-- The external world one refresh/install run observes: the persisted
`.current.json` and `.latest.json` files, the answer `latest_pypi_version`
would return, and the clock. -/
structure Env where
  currentFile : Option VersionMeta
  latestFile : Option VersionMeta
  indexVersion : Option String
  now : Int
deriving Repr, DecidableEq

/-- The three metas a `Packager` holds (package.py:323-325). -/
structure PackState where
  current : VersionMeta := {}
  latest : VersionMeta := {}
  desired : VersionMeta := {}
deriving Repr, DecidableEq

/-- `Packager.refresh_latest` (package.py:405-417).  Returns the new state, a
flag reporting whether `self.latest.save()` wrote the latest file, and a flag
reporting whether `latest_pypi_version` was queried. -/
def refresh_latest (S : SettingsModel) (env : Env) (st : PackState) :
    PackState × Bool × Bool :=
  let latest := loadMeta env.latestFile st.latest
  if latest.still_valid env.now S.version_check_delay then
    ({ st with latest := latest }, false, false)
  else
    let version := env.indexVersion
    let latest := latest.set_version (version.getD "")
      (if strTruthy S.index then S.index else "pypi") DEFAULT_CHANNEL env.now
    if optStrTruthy version then
      ({ st with latest := latest }, true, true)
    else
      ({ st with latest := latest.invalidate "can't determine latest version" },
        false, true)

/-- `Packager.refresh_desired` (package.py:419-433).  Returns the new state and
the two flags propagated from `refresh_latest` (latest-file written, index
queried); both are false on the paths that do not call `refresh_latest`. -/
def refresh_desired (S : SettingsModel) (env : Env) (st : PackState) :
    PackState × Bool × Bool :=
  if optStrTruthy S.pinned then
    let desired := st.desired.set_version (S.pinned.getD "") S.pinnedStr
      S.channelValue env.now
    let desired := desired.setPackager S.pinfo
    ({ st with desired := desired }, false, false)
  else if S.channelValue = DEFAULT_CHANNEL then
    let r := refresh_latest S env st
    let desired := r.1.desired.setPackager S.pinfo
    let desired := desired.setOne r.1.latest
    ({ r.1 with desired := desired }, r.2.1, r.2.2)
  else
    ({ st with desired :=
        st.desired.invalidate ("can't determine " ++ S.channelValue ++ " version") },
      false, false)

/-- `Packager.refresh_current` (package.py:399-403). -/
def refresh_current (env : Env) (st : PackState) : PackState :=
  let current := loadMeta env.currentFile st.current
  let current := if current.valid then current else current.invalidate "is not installed"
  { st with current := current }

/-- How an `internal_install` run ends: a fatal abort, the "already installed"
early return (package.py:500-503), or the full install path. -/
inductive InstallOutcome where
  | aborted (msg : String)
  | alreadyInstalled
  | installed
deriving Repr, DecidableEq

/-- The observable effects of one `internal_install` run: how it ended, whether
`latest_pypi_version` was queried, whether the `.latest.json` file was written,
whether `effective_install` (the build/install step) ran, whether
`self.current.save()` rewrote the current file, and whether the shared bin
directory was touched (deliveries and removed-entry-point deletions all happen
on the install path, package.py:508-523). -/
structure InstallEffects where
  outcome : InstallOutcome
  queriedIndex : Bool
  latestSaved : Bool
  buildRan : Bool
  currentSaved : Bool
  binTouched : Bool
deriving Repr, DecidableEq

/-- `Packager.internal_install` (package.py:488-529).  The external build step
`effective_install` is abstract in the source (an abstract method); here the
install path records its effects as flags rather than modelling the subclass
bodies, and the in-memory `current` meta is updated as `current.set(self,
desired)` (package.py:525) before being saved. -/
def internal_install (S : SettingsModel) (env : Env) (force bootstrap : Bool)
    (st : PackState) : InstallEffects × PackState :=
  let intent := if bootstrap then "bootstrap" else "install"
  let r := refresh_desired S env st
  if !r.1.desired.valid then
    ({ outcome := .aborted ("Can't " ++ intent ++ " " ++ S.name ++ ": "
          ++ r.1.desired.problem.getD ""),
       queriedIndex := r.2.2, latestSaved := r.2.1,
       buildRan := false, currentSaved := false, binTouched := false }, r.1)
  else
    let st := refresh_current env r.1
    if !force && st.current.equivalent (some st.desired) then
      ({ outcome := .alreadyInstalled,
         queriedIndex := r.2.2, latestSaved := r.2.1,
         buildRan := false, currentSaved := false, binTouched := false }, st)
    else
      let current := (st.current.setPackager S.pinfo).setOne st.desired
      ({ outcome := .installed,
         queriedIndex := r.2.2, latestSaved := r.2.1,
         buildRan := true, currentSaved := true, binTouched := true },
        { st with current := current })

/-- `Packager.entry_points` (package.py:351-360) in the state where the
in-memory cache is `cached` and the `.entry-points.json` file holds `file`
(`none` when absent): the file is consulted only when the cache is unset, and
when both are absent the default is `[name]` under `system.DRYRUN` and `[]`
otherwise. -/
def entry_points (cached file : Option (List String)) (name : String)
    (dryrun : Bool) : List String :=
  match cached with
  | some l => l
  | none =>
    match file with
    | some l => l
    | none => if dryrun then [name] else []

/-- How a `DeliveryMethod.install` call ends (package.py:81-99): the dry-run
log-and-return, the fatal abort for a missing source, the fatal abort wrapping
a placement exception, or successful placement. -/
inductive DeliveryOutcome where
  | dryRun
  | abortedMissingSource
  | abortedPlacement (err : String)
  | placed
deriving Repr, DecidableEq

/-- The observable effects of one `DeliveryMethod.install` call. -/
structure DeliveryResult where
  targetDeleted : Bool
  placeAttempted : Bool
  outcome : DeliveryOutcome
deriving Repr, DecidableEq

/-- `DeliveryMethod.install` (package.py:81-99).  `dryrun` is `system.DRYRUN`,
`sourceExists` is `os.path.exists(source)`, and `place` is the outcome of the
strategy-specific `self._install(target, source)` (`Except.error e` when it
raises `e`). -/
def DeliveryMethod.install (dryrun sourceExists : Bool)
    (place : Except String Unit) : DeliveryResult :=
  if dryrun then
    { targetDeleted := true, placeAttempted := false, outcome := .dryRun }
  else if !sourceExists then
    { targetDeleted := true, placeAttempted := false, outcome := .abortedMissingSource }
  else
    match place with
    | .ok _ => { targetDeleted := true, placeAttempted := true, outcome := .placed }
    | .error e =>
      { targetDeleted := true, placeAttempted := true, outcome := .abortedPlacement e }

/-- Split a character list into path components at `/`. -/
def splitComponents : List Char → List (List Char)
  | [] => [[]]
  | c :: cs =>
    match splitComponents cs with
    | [] => []
    | h :: t => if c = '/' then [] :: h :: t else (c :: h) :: t

/-- Components of a path string, split on `/` (Python `str.split("/")`). -/
def splitPath (s : String) : List String :=
  (splitComponents s.toList).map (fun l => String.mk l)

/-- Is `p` a prefix of `s`, character-wise? -/
def listIsPre : List Char → List Char → Bool
  | [], _ => true
  | _ :: _, [] => false
  | a :: as, b :: bs => a = b && listIsPre as bs

/-- Python `s.startswith(p)`. -/
def strStartsWith (s p : String) : Bool := listIsPre p.toList s.toList

/-- Join strings with a separator (as `"/".join(...)` does). -/
def joinWith (sep : String) : List String → String
  | [] => ""
  | [x] => x
  | x :: y :: xs => x ++ sep ++ joinWith sep (y :: xs)

/-- `os.path.isabs` for POSIX paths. -/
def isAbs (s : String) : Bool := strStartsWith s "/"

/-- Modelled from the spec: `system.parent_folder` (not under src/) returns the
containing directory of a path — all components but the last. -/
def parent_folder (s : String) : String :=
  joinWith "/" (splitPath s).dropLast

/-- Length of the longest common leading run of two component lists. -/
def commonLen : List String → List String → Nat
  | a :: as, b :: bs => if a = b then commonLen as bs + 1 else 0
  | _, _ => 0

/-- `os.path.relpath(path, start)` for normalized absolute POSIX paths (an
external utility the delivery code calls): climb out of the components of
`start` that are not shared with `path`, then descend into the rest of `path`. -/
def relpath (path start : String) : String :=
  let p := splitPath path
  let s := splitPath start
  let i := commonLen p s
  joinWith "/" (List.replicate (s.length - i) ".." ++ p.drop i)

/-- `DeliverySymlink._install` (package.py:114-120), reduced to the string the
created link stores: when both paths are absolute and the source's parent
folder string starts with the target's parent folder string, the source is
rewritten relative to the target's parent; otherwise it is stored unchanged. -/
def symlinkSource (target source : String) : String :=
  if isAbs source && isAbs target then
    let parent := parent_folder target
    if strStartsWith (parent_folder source) parent then relpath source parent
    else source
  else source

/-- The spec's notion for comparison: directory `p` is under directory `d`
(equal to it, or below it at a path-component boundary). -/
def isUnder (p d : String) : Bool := p = d || strStartsWith p (d ++ "/")

/-- The claim's reading of field precedence in `VersionMeta.set`: the last
truthy (non-empty) value in the chain wins, the start value when none is. -/
def lastTruthy (d : String) (xs : List String) : String :=
  xs.foldl (fun acc x => if strTruthy x then x else acc) d

/-- A concrete packager record (a venv packager delivering by symlink). -/
def venvInfo : PackagerInfo :=
  { implementation_name := "venv", resolvedDelivery := some "symlink",
    resolvedPython := "python3" }

/-- A concrete settings record: default "latest" channel, no pin, no index
override, a 10-unit version-check delay. -/
def cfgLatest : SettingsModel :=
  { index := "", version_check_delay := 10, channelValue := "latest",
    pinned := none, pinnedStr := "", name := "foo", pinfo := venvInfo }

/-- The same settings with a non-default, non-pinned channel "stable". -/
def cfgStable : SettingsModel :=
  { cfgLatest with
    channelValue := "stable",
    pinfo := { implementation_name := "pex", resolvedDelivery := some "copy",
               resolvedPython := "py" } }

/-- A concrete world: `foo 1.0` is installed (persisted current meta), the
latest cache file is absent, and the index reports `1.0` at time 100. -/
def envHit : Env :=
  { currentFile := some { version := "1.0", packager := "venv" },
    latestFile := none, indexVersion := some "1.0", now := 100 }

/-- A concrete world where the persisted latest cache is fresh: stamped at 95,
queried at 100, within the 10-unit delay. -/
def envCacheHit : Env :=
  { currentFile := none,
    latestFile := some { version := "1.0", timestamp := some 95,
                         channel := "latest", source := "pypi" },
    indexVersion := none, now := 100 }

/-!  Theorems settling the claims. -/

/-- C2: for metas `a` and `b` (`b` not `None`), `equivalent(a, b)` holds iff
`a.version == b.version` and `a.packager == b.packager`; no other field enters
the comparison, and `equivalent(a, None)` is false. -/
theorem C2_equivalent_iff_version_packager : ∀ (a b : VersionMeta),
    (a.equivalent (some b) = true ↔ (a.version = b.version ∧ a.packager = b.packager)) ∧
    a.equivalent none = false := by
  intro a b
  constructor
  · by_cases h1 : a.version = b.version <;> by_cases h2 : a.packager = b.packager <;>
      simp [VersionMeta.equivalent, h1, h2]
  · rfl

/-- C3: for every meta whose problem is not the degenerate empty string,
`valid` holds iff the version is non-empty and the problem is unset;
`invalidate` always makes `valid` false, and `set_version` with a non-empty
version on a problem-free meta makes `valid` true. -/
theorem C3_valid_iff_version_and_no_problem : ∀ (m : VersionMeta), m.problem ≠ some "" →
    (m.valid = true ↔ (m.version ≠ "" ∧ m.problem = none)) ∧
    (∀ p, (m.invalidate p).valid = false) ∧
    (∀ v s c t, v ≠ "" → m.problem = none → (m.set_version v s c t).valid = true) := by
  intro m h
  refine ⟨?_, ?_, ?_⟩
  · cases hp : m.problem with
    | none => simp [VersionMeta.valid, strTruthy, optStrTruthy, hp]
    | some s =>
      have hs : s ≠ "" := fun he => h (he ▸ hp)
      simp [VersionMeta.valid, strTruthy, optStrTruthy, hp, hs]
  · intro p
    simp [VersionMeta.invalidate, VersionMeta.valid, strTruthy]
  · intro v s c t hv hp
    simp [VersionMeta.set_version, VersionMeta.valid, strTruthy, optStrTruthy, hp, hv]

/-- C3 witness: instantiated at a concrete problem-free meta, `invalidate`
makes it invalid. -/
theorem C3_valid_iff_witness :
    (({ version := "1.0" } : VersionMeta).invalidate "boom").valid = false :=
  (C3_valid_iff_version_and_no_problem { version := "1.0" } (by decide)).2.1 "boom"

/-- C10: with no in-memory entry points and no cached entry-points file, the
`entry_points` property is `[name]` under the process-wide dry-run flag and
`[]` otherwise. -/
theorem C10_entry_points_default : ∀ (name : String),
    entry_points none none name true = [name] ∧ entry_points none none name false = [] := by
  intro name
  exact ⟨rfl, rfl⟩

/-- C8: `DeliveryMethod.install` always deletes the target first; in dry-run it
only logs and returns; otherwise it aborts when the source is missing, aborts
wrapping the error when placement raises, succeeds when placement succeeds, and
placement is attempted only when the source exists (and not in dry-run). -/
theorem C8_delivery_install_contract : ∀ (dryrun sourceExists : Bool)
    (place : Except String Unit),
    (DeliveryMethod.install dryrun sourceExists place).targetDeleted = true ∧
    (dryrun = true → DeliveryMethod.install dryrun sourceExists place =
      { targetDeleted := true, placeAttempted := false, outcome := .dryRun }) ∧
    (dryrun = false → sourceExists = false → DeliveryMethod.install dryrun sourceExists place =
      { targetDeleted := true, placeAttempted := false, outcome := .abortedMissingSource }) ∧
    (∀ e, dryrun = false → sourceExists = true → place = .error e →
      (DeliveryMethod.install dryrun sourceExists place).outcome = .abortedPlacement e) ∧
    (dryrun = false → sourceExists = true → place = .ok () →
      (DeliveryMethod.install dryrun sourceExists place).outcome = .placed) ∧
    ((DeliveryMethod.install dryrun sourceExists place).placeAttempted = true →
      sourceExists = true ∧ dryrun = false) := by
  intro d s p
  cases d <;> cases s <;> cases p <;> simp [DeliveryMethod.install]

/-- C8 witness: a real run with a missing source aborts with the
missing-source diagnostic. -/
theorem C8_delivery_install_contract_witness :
    DeliveryMethod.install false false (Except.ok ()) =
      { targetDeleted := true, placeAttempted := false,
        outcome := .abortedMissingSource } :=
  (C8_delivery_install_contract false false (Except.ok ())).2.2.1 rfl rfl

/-- C4 counterexample: a valid meta with timestamp `0` (falsy in Python) is
reported `still_valid` at `now = 1000` with delay `10`, although the elapsed
time `1000 - 0` is not below the delay; likewise a valid meta with no
timestamp at all is reported `still_valid`.  The claimed biconditional
"still_valid ⇔ valid ∧ elapsed < delay" therefore fails on the code. -/
theorem C4_still_valid_counterexample :
    VersionMeta.still_valid 1000 10 { version := "1.0", timestamp := some 0 } = true ∧
    VersionMeta.valid { version := "1.0", timestamp := some 0 } = true ∧
    ¬((1000 : Int) - 0 < 10) ∧
    VersionMeta.still_valid 100 10 { version := "1.0", timestamp := none } = true := by
  decide

/-- C4 (amended): `still_valid` degenerates to `valid` whenever the timestamp
is absent or zero (Python falsiness); for a meta carrying a nonzero timestamp
`t`, `still_valid` holds iff the meta is valid and `now - t` is strictly below
the configured delay — true strictly within the delay, false from the boundary
on. -/
theorem C4_still_valid_expiry : ∀ (now delay : Int) (m : VersionMeta),
    (m.timestamp = none → m.still_valid now delay = m.valid) ∧
    (m.timestamp = some 0 → m.still_valid now delay = m.valid) ∧
    (∀ t, m.timestamp = some t → t ≠ 0 →
      (m.still_valid now delay = true ↔ (m.valid = true ∧ now - t < delay))) := by
  intro now delay m
  refine ⟨?_, ?_, ?_⟩
  · intro h
    simp [VersionMeta.still_valid, optTimeTruthy, h]
  · intro h
    simp [VersionMeta.still_valid, optTimeTruthy, h]
  · intro t ht hz
    by_cases hv : m.valid <;>
      simp [VersionMeta.still_valid, optTimeTruthy, ht, hz, hv]

/-- C4 witness: a valid meta stamped at `1` is still valid at `now = 5` with
delay `10`. -/
theorem C4_still_valid_expiry_witness :
    VersionMeta.still_valid 5 10 { version := "1.0", timestamp := some 1 } = true :=
  ((C4_still_valid_expiry 5 10 { version := "1.0", timestamp := some 1 }).2.2 1 rfl
    (by decide)).mpr ⟨by decide, by decide⟩

/-- C5: for `m.set(*others)` over a non-empty list of `VersionMeta` arguments,
problem/channel/source/timestamp/version always take the last argument's
values (even when empty or unset), while packager/delivery/python take the
last non-empty value in the chain, falling back to `m`'s own value. -/
theorem C5_set_field_precedence : ∀ (m : VersionMeta) (l : List VersionMeta) (b : VersionMeta),
    (m.setList (l ++ [b])).problem = b.problem ∧
    (m.setList (l ++ [b])).channel = b.channel ∧
    (m.setList (l ++ [b])).source = b.source ∧
    (m.setList (l ++ [b])).timestamp = b.timestamp ∧
    (m.setList (l ++ [b])).version = b.version ∧
    (m.setList (l ++ [b])).packager = lastTruthy m.packager ((l ++ [b]).map VersionMeta.packager) ∧
    (m.setList (l ++ [b])).delivery = lastTruthy m.delivery ((l ++ [b]).map VersionMeta.delivery) ∧
    (m.setList (l ++ [b])).python = lastTruthy m.python ((l ++ [b]).map VersionMeta.python) := by
  intro m l b
  induction l generalizing m with
  | nil =>
    refine ⟨rfl, rfl, rfl, rfl, rfl, ?_, ?_, ?_⟩ <;>
      simp [VersionMeta.setList, VersionMeta.setOne, lastTruthy]
  | cons a as ih =>
    have h := ih (m.setOne a)
    simpa [VersionMeta.setList, lastTruthy, VersionMeta.setOne] using h

/-- C6 counterexample: with channel "stable", no pin, and a live packager whose
implementation name is "pex" (delivery "copy", python "py"), `refresh_desired`
takes the failure path and leaves the desired meta's packager, delivery and
python fields untouched — no `set()` merge of live packager metadata happens
there, contradicting "merges ... on every path". -/
theorem C6_refresh_desired_counterexample :
    (refresh_desired cfgStable envHit {}).1.desired.problem =
      some "can't determine stable version" ∧
    (refresh_desired cfgStable envHit {}).1.desired.packager = "" ∧
    (refresh_desired cfgStable envHit {}).1.desired.delivery = "" ∧
    (refresh_desired cfgStable envHit {}).1.desired.python = "" ∧
    cfgStable.pinfo.implementation_name = "pex" ∧
    cfgStable.pinfo.resolvedDelivery = some "copy" ∧
    cfgStable.pinfo.resolvedPython = "py" := by
  decide

/-- C6 (amended): `refresh_desired` merges live packager metadata via `set()`
on the explicit-pin path and on the default-channel path; on the failure path
(channel neither pinned nor the default) it only invalidates the desired meta
with "can't determine <channel> version" and merges nothing — packager,
delivery and python are left as they were. -/
theorem C6_refresh_desired_merge : ∀ (S : SettingsModel) (env : Env) (st : PackState),
    (optStrTruthy S.pinned = true →
      (refresh_desired S env st).1.desired =
        (st.desired.set_version (S.pinned.getD "") S.pinnedStr S.channelValue
          env.now).setPackager S.pinfo) ∧
    (optStrTruthy S.pinned = false → S.channelValue = DEFAULT_CHANNEL →
      (refresh_desired S env st).1.desired =
        ((refresh_latest S env st).1.desired.setPackager S.pinfo).setOne
          ((refresh_latest S env st).1.latest)) ∧
    (optStrTruthy S.pinned = false → S.channelValue ≠ DEFAULT_CHANNEL →
      (refresh_desired S env st).1.desired =
        st.desired.invalidate ("can't determine " ++ S.channelValue ++ " version") ∧
      (refresh_desired S env st).1.desired.packager = st.desired.packager ∧
      (refresh_desired S env st).1.desired.delivery = st.desired.delivery ∧
      (refresh_desired S env st).1.desired.python = st.desired.python) := by
  intro S env st
  refine ⟨?_, ?_, ?_⟩
  · intro h
    simp [refresh_desired, h]
  · intro h1 h2
    simp [refresh_desired, h1, h2]
  · intro h1 h2
    refine ⟨?_, ?_, ?_, ?_⟩ <;> simp [refresh_desired, h1, h2, VersionMeta.invalidate]

/-- C6 witness: instantiated at the concrete "stable" configuration, the
failure path only invalidates the desired meta. -/
theorem C6_refresh_desired_merge_witness :
    (refresh_desired cfgStable envHit {}).1.desired =
      ({} : PackState).desired.invalidate
        ("can't determine " ++ cfgStable.channelValue ++ " version") :=
  ((C6_refresh_desired_merge cfgStable envHit {}).2.2 (by decide) (by decide)).1

/-- C7: `refresh_latest` returns the loaded meta unchanged, with no index query
and no save, whenever it is `still_valid`; otherwise it queries the index,
saves exactly when a (truthy) version was obtained, and on failure invalidates
the meta with "can't determine latest version" without saving. -/
theorem C7_refresh_latest_contract : ∀ (S : SettingsModel) (env : Env) (st : PackState),
    ((loadMeta env.latestFile st.latest).still_valid env.now S.version_check_delay = true →
      refresh_latest S env st =
        ({ st with latest := loadMeta env.latestFile st.latest }, false, false)) ∧
    ((loadMeta env.latestFile st.latest).still_valid env.now S.version_check_delay = false →
      (refresh_latest S env st).2.2 = true ∧
      ((refresh_latest S env st).2.1 = true ↔ optStrTruthy env.indexVersion = true) ∧
      (optStrTruthy env.indexVersion = false →
        (refresh_latest S env st).2.1 = false ∧
        (refresh_latest S env st).1.latest.problem = some "can't determine latest version" ∧
        (refresh_latest S env st).1.latest.version = "")) := by
  intro S env st
  constructor
  · intro h
    simp [refresh_latest, h]
  · intro h
    by_cases hv : optStrTruthy env.indexVersion <;>
      simp [refresh_latest, h, hv, VersionMeta.invalidate]

/-- C7 witness: at the concrete fresh-cache world, `refresh_latest` is a cache
hit returning the loaded meta with no query and no save. -/
theorem C7_refresh_latest_contract_witness :
    refresh_latest cfgLatest envCacheHit {} =
      ({ ({} : PackState) with
          latest := loadMeta envCacheHit.latestFile ({} : PackState).latest },
        false, false) :=
  (C7_refresh_latest_contract cfgLatest envCacheHit {}).1 (by decide)

lemma listIsPre_refl : ∀ (l : List Char), listIsPre l l = true := by
  intro l
  induction l with
  | nil => rfl
  | cons a as ih => simp [listIsPre, ih]

lemma listIsPre_append_left : ∀ (x y z : List Char),
    listIsPre (x ++ y) z = true → listIsPre x z = true := by
  intro x
  induction x with
  | nil => intro y z _; rfl
  | cons a as ih =>
    intro y z h
    cases z with
    | nil => simp [listIsPre] at h
    | cons b bs =>
      simp [listIsPre] at h ⊢
      exact ⟨h.1, ih y bs h.2⟩

lemma isUnder_imp_startsWith : ∀ (p d : String),
    isUnder p d = true → strStartsWith p d = true := by
  intro p d h
  simp [isUnder] at h
  cases h with
  | inl h => subst h; exact listIsPre_refl _
  | inr h =>
    obtain ⟨ld⟩ := d
    exact listIsPre_append_left ld ['/'] _ h

/-- C9 counterexample: target `/a/b/x` and source `/a/bc/y` are both absolute;
the source's parent `/a/bc` is NOT under the target's parent `/a/b` (the string
prefix does not end at a path-component boundary), yet the code stores the link
in relative form `../bc/y`, not `source` unchanged — the condition the code
tests is string `startswith`, not directory containment. -/
theorem C9_symlink_counterexample :
    symlinkSource "/a/b/x" "/a/bc/y" = "../bc/y" ∧
    ("../bc/y" : String) ≠ "/a/bc/y" ∧
    isAbs "/a/b/x" = true ∧ isAbs "/a/bc/y" = true ∧
    isUnder (parent_folder "/a/bc/y") (parent_folder "/a/b/x") = false := by
  decide

/-- C9 (amended): with both paths absolute, the created link stores the source
rewritten relative to the target's parent exactly when the source's parent
folder string starts with the target's parent folder string — a condition
implied by (but weaker than) directory containment; in every other case the
link stores the source unchanged. -/
theorem C9_symlink_relative_on_startswith : ∀ (target source : String),
    (isAbs source = true → isAbs target = true →
      strStartsWith (parent_folder source) (parent_folder target) = true →
        symlinkSource target source = relpath source (parent_folder target)) ∧
    (strStartsWith (parent_folder source) (parent_folder target) = false →
        symlinkSource target source = source) ∧
    ((isAbs source && isAbs target) = false → symlinkSource target source = source) ∧
    (isUnder (parent_folder source) (parent_folder target) = true →
        strStartsWith (parent_folder source) (parent_folder target) = true) := by
  intro target source
  refine ⟨?_, ?_, ?_, ?_⟩
  · intro h1 h2 h3
    simp [symlinkSource, h1, h2, h3]
  · intro h
    unfold symlinkSource
    split
    · simp [h]
    · rfl
  · intro h
    simp [symlinkSource, h]
  · exact isUnder_imp_startsWith _ _

/-- C9 witness: a delivered executable under the pickley metadata folder next
to the bin directory is linked relatively. -/
theorem C9_symlink_relative_on_startswith_witness :
    symlinkSource "/root/bin/foo" "/root/bin/pick/foo-1.0" =
      relpath "/root/bin/pick/foo-1.0" (parent_folder "/root/bin/foo") :=
  (C9_symlink_relative_on_startswith "/root/bin/foo" "/root/bin/pick/foo-1.0").1
    (by decide) (by decide) (by decide)

lemma refresh_current_desired : ∀ (env : Env) (st : PackState),
    (refresh_current env st).desired = st.desired := by
  intro env st
  rfl

/-- C1 counterexample: `foo 1.0` is installed and equivalent to the resolved
desired meta, `force = False` — the run reports "already installed" and skips
the build — but because the latest cache was stale, resolving the desired
version queried the index and saved the refreshed latest meta to its
`.latest.json` file, which lives under the package metadata directory
(package.py:181, 414).  "No file under the package metadata directory changes"
is therefore false as stated. -/
theorem C1_internal_install_counterexample :
    (internal_install cfgLatest envHit false false {}).1.outcome =
      InstallOutcome.alreadyInstalled ∧
    (internal_install cfgLatest envHit false false {}).1.queriedIndex = true ∧
    (internal_install cfgLatest envHit false false {}).1.latestSaved = true := by
  decide

/-- C1 (amended): whenever the refreshed current meta is equivalent to the
resolved desired meta and `force = False`, `internal_install` reports "already
installed" and returns without running the build/install step, without
rewriting the persisted current meta, and without touching the shared bin
directory; resolving the desired version may however still query the index and
rewrite the persisted latest-cache file under the metadata directory. -/
theorem C1_already_installed_no_install_effects : ∀ (S : SettingsModel) (env : Env)
    (st : PackState),
    (refresh_desired S env st).1.desired.valid = true →
    (refresh_current env (refresh_desired S env st).1).current.equivalent
      (some (refresh_desired S env st).1.desired) = true →
    (internal_install S env false false st).1.outcome = InstallOutcome.alreadyInstalled ∧
    (internal_install S env false false st).1.buildRan = false ∧
    (internal_install S env false false st).1.currentSaved = false ∧
    (internal_install S env false false st).1.binTouched = false ∧
    (internal_install S env false false st).2 =
      refresh_current env (refresh_desired S env st).1 := by
  intro S env st h1 h2
  simp [internal_install, h1, h2, refresh_current_desired]

/-- C1 witness: at the concrete already-installed world, the build does not run
and the current meta is not rewritten. -/
theorem C1_already_installed_no_install_effects_witness :
    (internal_install cfgLatest envHit false false {}).1.buildRan = false ∧
    (internal_install cfgLatest envHit false false {}).1.currentSaved = false := by
  have h := C1_already_installed_no_install_effects cfgLatest envHit {}
    (by decide) (by decide)
  exact ⟨h.2.1, h.2.2.1⟩

end Pickley

